import Mathlib

/-!
Verification of the cron scheduling and execution engine of this repository.

The definitions below are a shallow embedding of the TypeScript source:

* `matchesCronFieldL` / `shouldRunJob` embed `matchesCronField` and
  `shouldRunJob` from src/lib/cron-scheduler.ts, working over the character
  list of the field string exactly as the JS code works over the string.
* JS numeric coercions are embedded by `jsNumberL` (the `Number(...)`
  conversion) and `jsParseIntL` (`parseInt(..., 10)`), restricted to the
  shapes that can reach them here: an optional sign followed by decimal
  digits, the empty string (which `Number` maps to 0), and everything else
  mapped to `none`, standing for `NaN`.  Comparisons and `%` against `NaN`
  are false in JS, and `x % 0` is `NaN`; `jsModEqZero`, `jsGeB`, `jsLeB`
  and `jsNumEq` encode exactly that.
-/

namespace CronSpec

/-- Numeric value of a list of decimal digit characters, most significant
first, as computed by reading the digits left to right. -/
def natOfDigits (l : List Char) : Nat :=
  l.foldl (fun acc c => 10 * acc + (c.toNat - 48)) 0

/-- Embedding of the JS single-character `String.prototype.split`: splitting
an empty string yields one empty piece, and separators at the ends yield
empty pieces, exactly as in JS. -/
def splitOnChar (sep : Char) : List Char → List (List Char)
  | [] => [[]]
  | c :: rest =>
    let r := splitOnChar sep rest
    if c = sep then [] :: r
    else
      match r with
      | h :: t => (c :: h) :: t
      | [] => [[c]]

/-- Embedding of the JS `Number(...)` coercion on the strings reachable in
`matchesCronField`: the empty string is 0, optional-sign decimal integers
are their value, anything else is `none` (`NaN`). -/
def jsNumberL (s : List Char) : Option Int :=
  if s = [] then some 0
  else if s.all Char.isDigit then some ((natOfDigits s : Nat) : Int)
  else
    match s with
    | '-' :: rest =>
      if rest ≠ [] ∧ rest.all Char.isDigit then some (-((natOfDigits rest : Nat) : Int))
      else none
    | _ => none

/-- Embedding of JS `parseInt(s, 10)`: an optional sign, then the longest
leading run of decimal digits; `none` (`NaN`) when that run is empty. -/
def jsParseIntL (s : List Char) : Option Int :=
  match s with
  | '-' :: rest =>
    let ds := rest.takeWhile Char.isDigit
    if ds = [] then none else some (-((natOfDigits ds : Nat) : Int))
  | '+' :: rest =>
    let ds := rest.takeWhile Char.isDigit
    if ds = [] then none else some ((natOfDigits ds : Nat) : Int)
  | _ =>
    let ds := s.takeWhile Char.isDigit
    if ds = [] then none else some ((natOfDigits ds : Nat) : Int)

/-- JS `value >= lo` where `lo` may be `NaN`; any comparison with `NaN` is
false. -/
def jsGeB (v : Nat) (lo : Option Int) : Bool :=
  match lo with
  | some a => decide (a ≤ (v : Int))
  | none => false

/-- JS `value <= hi` where `hi` may be `NaN`. -/
def jsLeB (v : Nat) (hi : Option Int) : Bool :=
  match hi with
  | some b => decide ((v : Int) ≤ b)
  | none => false

/-- JS `a % step === 0` where `step` may be `NaN`: `x % NaN` and `x % 0` are
`NaN`, which is not `=== 0`.  For the non-negative dividends produced by the
matcher, the JS remainder agrees with the Euclidean `%` used here. -/
def jsModEqZero (a : Int) (st : Option Int) : Bool :=
  match st with
  | some s => if s = 0 then false else decide (a % s = 0)
  | none => false

/-- JS `Number(s) === value` as used by the list branch via
`Array.prototype.includes`; `NaN` entries never equal a clock value. -/
def jsNumEq (s : List Char) (v : Nat) : Bool :=
  match jsNumberL s with
  | some a => decide (a = (v : Int))
  | none => false

/-- Embedding of `matchesCronField` from src/lib/cron-scheduler.ts over the
character list of the field.  The branch structure mirrors the source: exact
string match against `value.toString()`, wildcard, the slash block (which
only returns for a `*` base or a base containing `-`, and otherwise falls
through, encoded by the `Option Bool` value `slash`), the plain range
branch, the comma list branch, and a final false. -/
def matchesCronFieldL (field : List Char) (value : Nat) : Bool :=
  if field = (Nat.repr value).toList then true
  else if field = ['*'] then true
  else
    let slash : Option Bool :=
      if field.contains '/' then
        let parts := splitOnChar '/' field
        let range := parts.headD []
        let step := (parts.drop 1).headD []
        let stepNum := jsParseIntL step
        if range = ['*'] then some (jsModEqZero (value : Int) stepNum)
        else if range.contains '-' then
          let rp := splitOnChar '-' range
          let lo := jsNumberL (rp.headD [])
          let hi := jsNumberL ((rp.drop 1).headD [])
          some (jsGeB value lo && jsLeB value hi &&
                jsModEqZero ((value : Int) - lo.getD 0) stepNum)
        else none
      else none
    match slash with
    | some b => b
    | none =>
      if field.contains '-' then
        let rp := splitOnChar '-' field
        let lo := jsNumberL (rp.headD [])
        let hi := jsNumberL ((rp.drop 1).headD [])
        jsGeB value lo && jsLeB value hi
      else if field.contains ',' then
        (splitOnChar ',' field).any (fun s => jsNumEq s value)
      else false

/-- String-level wrapper for `matchesCronFieldL`, matching the source
signature `matchesCronField(field: string, value: number)`. -/
def matchesCronField (field : String) (value : Nat) : Bool :=
  matchesCronFieldL field.toList value

/-- Embedding of the relevant observations of a JS `Date` on the local
clock: the exact getters read by `shouldRunJob`.  `getDay` always yields a
value in 0..6 in JS, embedded as `Fin 7`. -/
structure JsDate where
  getFullYear : Nat
  getMonth : Nat
  getDate : Nat
  getHours : Nat
  getMinutes : Nat
  getDay : Fin 7
deriving DecidableEq, Repr

/-- The same-minute comparison from `shouldRunJob`: equality of the five
local calendar fields year, month, day, hour, minute. -/
def sameMinute (lastRun now : JsDate) : Bool :=
  lastRun.getFullYear == now.getFullYear &&
  lastRun.getMonth == now.getMonth &&
  lastRun.getDate == now.getDate &&
  lastRun.getHours == now.getHours &&
  lastRun.getMinutes == now.getMinutes

/-- Core of `shouldRunJob` after the schedule string has been split: the
five field checks in source order (an early-return chain, here the
equivalent Boolean conjunction), then the run-once guard against
`lastRunTime`.  Any part count other than five yields false. -/
def shouldRunParts (parts : List (List Char)) (now : JsDate)
    (lastRun : Option JsDate) : Bool :=
  match parts with
  | [minute, hour, dayOfMonth, month, dayOfWeek] =>
    matchesCronFieldL minute now.getMinutes &&
    matchesCronFieldL hour now.getHours &&
    matchesCronFieldL dayOfMonth now.getDate &&
    matchesCronFieldL month (now.getMonth + 1) &&
    matchesCronFieldL dayOfWeek now.getDay.val &&
    (match lastRun with
     | none => true
     | some lr => !(sameMinute lr now))
  | _ => false

/-- The split of the schedule string performed by `shouldRunJob`:
`split(sep)` on a single space followed by dropping empty pieces. -/
def splitSchedule (s : String) : List (List Char) :=
  (splitOnChar ' ' s.toList).filter (fun p => p ≠ [])

/-- Embedding of `shouldRunJob` from src/lib/cron-scheduler.ts.  `now` is
the local-clock view of the current instant; `lastRun` is the local-clock
view of `new Date(lastRunTime)` when `lastRunTime` is non-null. -/
def shouldRunJob (schedule : String) (now : JsDate)
    (lastRun : Option JsDate) : Bool :=
  shouldRunParts (splitSchedule schedule) now lastRun

/-- A sample local-clock instant used by witnesses: 2026-10-11 12:00, a
Sunday. -/
def sampleDate : JsDate :=
  { getFullYear := 2026, getMonth := 9, getDate := 11, getHours := 12,
    getMinutes := 0, getDay := 0 }

/-- Helper: the single-character field 7 never matches a JS day-of-week
value, which is always in 0..6. -/
theorem dow_seven_no_match : ∀ d : Fin 7, matchesCronFieldL ['7'] d.val = false := by
  decide

/-- C2: for every cron expression and every last-run instant whose local
calendar fields (year, month, day, hour, minute) all equal those of the
current instant, `shouldRunJob` returns false; the comparison is by those
calendar fields (the embedding never consults epoch milliseconds), so this
holds even when every field of the expression matches the current time. -/
theorem c2_same_minute_guard (schedule : String) (now lastRun : JsDate)
    (h : sameMinute lastRun now = true) :
    shouldRunJob schedule now (some lastRun) = false := by
  unfold shouldRunJob
  generalize splitSchedule schedule = parts
  rcases parts with _ | ⟨m, _ | ⟨hh, _ | ⟨d, _ | ⟨mo, _ | ⟨dw, rest⟩⟩⟩⟩⟩ <;>
    first
    | rfl
    | (cases rest with
       | nil => simp [shouldRunParts, h]
       | cons a b => rfl)

/-- Witness for C2 at a concrete schedule and instant: the matcher alone
accepts the wildcard schedule, yet the same-minute guard returns false. -/
theorem c2_same_minute_guard_witness :
    sameMinute sampleDate sampleDate = true ∧
    shouldRunJob ("* * * * *") sampleDate (some sampleDate) = false :=
  ⟨by decide, c2_same_minute_guard ("* * * * *") sampleDate sampleDate (by decide)⟩

/-- C3: over the minute range 0..59, the field */15 matches exactly the
multiples of 15, that is 0, 15, 30 and 45, and the field 0-10/5 matches
exactly the values that are at most 10 and divisible by 5, that is 0, 5 and
10. -/
theorem c3_step_fields :
    ((List.range 60).all fun v =>
      (matchesCronField ("*/15") v == decide (v % 15 = 0)) &&
      (matchesCronField ("0-10/5") v == decide (v ≤ 10 ∧ v % 5 = 0))) = true := by
  decide

/-- C9: a five-field cron expression whose day-of-week field is the literal
7 never matches: the matcher only compares it against the 0..6 clock value
of `getDay`, which is never rendered as the string 7. -/
theorem c9_dow_seven_never_matches (e : String) (f1 f2 f3 f4 : List Char)
    (now : JsDate) (lastRun : Option JsDate)
    (h : splitSchedule e = [f1, f2, f3, f4, ['7']]) :
    shouldRunJob e now lastRun = false := by
  unfold shouldRunJob
  rw [h]
  simp [shouldRunParts, dow_seven_no_match now.getDay]

/-- Witness for C9 at the concrete expression with day-of-week 7, evaluated
at a Sunday instant where every other field matches. -/
theorem c9_dow_seven_never_matches_witness :
    splitSchedule ("* * * * 7") = [['*'], ['*'], ['*'], ['*'], ['7']] ∧
    shouldRunJob ("* * * * 7") sampleDate none = false :=
  ⟨by decide,
   c9_dow_seven_never_matches ("* * * * 7") ['*'] ['*'] ['*'] ['*']
     sampleDate none (by decide)⟩

/-- C10 counterexample: the malformed field consisting of a single dash is
not of any recognized form, yet it matches the value 0, because both empty
range endpoints are coerced by JS Number to 0. -/
theorem c10_counterexample : matchesCronField ("-") 0 = true := by decide

/-- C10 amended: the field matcher is a total function (it is defined by
structural recursion and never throws), and the unrecognized forms named by
the claim match no clock value: a step with a plain numeric base such as
5/3, a zero step */0, a range with non-numeric endpoints such as a-b, and a
range missing its upper endpoint such as 1-.  However, not every
unrecognized field is false: a range whose endpoints are both empty, the
field consisting of a single dash, matches 0, since JS Number of the empty
string is 0. -/
theorem c10_malformed_fields (v : Nat) (hv : v < 60) :
    matchesCronField ("5/3") v = false ∧
    matchesCronField ("*/0") v = false ∧
    matchesCronField ("a-b") v = false ∧
    matchesCronField ("1-") v = false := by
  revert hv
  revert v
  decide

/-- Witness for the amended C10 at the value 5, where the base of 5/3 even
equals the value. -/
theorem c10_malformed_fields_witness :
    (5 : Nat) < 60 ∧ matchesCronField ("5/3") 5 = false :=
  ⟨by decide, (c10_malformed_fields 5 (by decide)).1⟩

/-!
Job run state and the per-job updates of the cron runner
(src/pages/api/cron/runner.ts).  `CronJobConfig` embeds the persisted job
record fields that the runner reads and writes; optional TS fields are
`Option`.  The failure and success updates below are shared by the three
job-type branches of the runner, whose run-state assignments are textually
identical (failure: runner lines 249..262, 371..384 and 515..526; success:
lines 216..219, 336..339 and 485..487).  The updated record returned here
is exactly the value the runner then persists with one kv.set call.
-/

/-- Job type tag; the source stores it as a string union. -/
inductive JobType where
  | ethTransfer
  | swap
  | tokenSwap
  | other
deriving DecidableEq, Repr

/-- Embedding of the persisted `CronJobConfig` record
(src/pages/api/cron/create.ts) restricted to the fields the runner reads or
writes.  `consecutiveFailures` is a `Nat`; the source guards a possibly
missing value with a zero default before incrementing. -/
structure CronJobConfig where
  id : String
  name : String
  schedule : String
  jobType : JobType
  toAddress : Option String
  amount : Option String
  useMax : Bool
  fromToken : Option String
  toToken : Option String
  swapAmount : Option String
  swapDirection : Option String
  tokenAddress : Option String
  chain : Option String
  privateKey : String
  address : String
  walletId : Option String
  lastRunTime : Option Nat
  enabled : Bool
  consecutiveFailures : Nat
deriving DecidableEq, Repr

/-- Log entry status. -/
inductive LogStatus where
  | success
  | error
deriving DecidableEq, Repr

/-- Embedding of the log entry objects the runner persists under a
cron:log: key; fields absent in a given branch are `none`. -/
structure CronLogEntry where
  id : String
  jobId : String
  status : LogStatus
  txHash : Option String
  error : Option String
  executedAt : Nat
  fromAddr : Option String
  toAddr : Option String
  amount : Option String
  fromToken : Option String
  toToken : Option String
  tokenAddress : Option String
  autoPaused : Option Bool
deriving DecidableEq, Repr

/-- The auto-pause threshold MAX_FAILURES from the runner. -/
def MAX_FAILURES : Nat := 3

/-- Run-state update of the failure branches: increment
`consecutiveFailures`, disable the job when the new count reaches
MAX_FAILURES, and stamp `lastRunTime` with the current time; the result is
the record the runner persists. -/
def jobFailureUpdate (job : CronJobConfig) (nowMs : Nat) : CronJobConfig :=
  let failureCount := job.consecutiveFailures + 1
  { job with
    consecutiveFailures := failureCount,
    enabled := if failureCount ≥ MAX_FAILURES then false else job.enabled,
    lastRunTime := some nowMs }

/-- Run-state update of the success branches: reset `consecutiveFailures`
to 0 and stamp `lastRunTime`; `enabled` is not written. -/
def jobSuccessUpdate (job : CronJobConfig) (nowMs : Nat) : CronJobConfig :=
  { job with consecutiveFailures := 0, lastRunTime := some nowMs }

/-- The error log entry persisted by the failure branches; its `autoPaused`
flag records whether this failure reached the MAX_FAILURES threshold. -/
def errorLogEntry (logId : String) (job : CronJobConfig) (msg : String)
    (nowMs : Nat) : CronLogEntry :=
  { id := logId, jobId := job.id, status := .error, txHash := none,
    error := some msg, executedAt := nowMs, fromAddr := none, toAddr := none,
    amount := none, fromToken := none, toToken := none, tokenAddress := none,
    autoPaused := some (decide (job.consecutiveFailures + 1 ≥ MAX_FAILURES)) }

/-- The effective amount of an eth_transfer job: the configured amount with
a zero default, replaced by the computed maximum balance when `useMax` is
set (runner lines 174..179). -/
def ethTransferAmount (job : CronJobConfig) (maxEthBalance : String) : String :=
  if job.useMax then maxEthBalance else job.amount.getD ("0")

/-- The success log entry persisted by the eth_transfer branch (runner
lines 222..232).  Note the `amount` field: the source writes
`jobConfig.amount`, the configured amount, not the attempted
`amountToSend`. -/
def ethTransferSuccessLogEntry (logId : String) (job : CronJobConfig)
    (txHash : String) (nowMs : Nat) : CronLogEntry :=
  { id := logId, jobId := job.id, status := .success, txHash := some txHash,
    error := none, executedAt := nowMs, fromAddr := some job.address,
    toAddr := job.toAddress, amount := job.amount, fromToken := none,
    toToken := none, tokenAddress := none, autoPaused := none }

/-- The effective amount of a token_swap job (runner lines 421..431): the
configured swap amount with a zero default, replaced by the computed
maximum ETH or token balance when `useMax` is set. -/
def tokenSwapAmount (job : CronJobConfig) (maxEthBalance maxTokenBalance : String) : String :=
  if job.useMax then
    if job.swapDirection.getD ("eth_to_token") = ("eth_to_token") then maxEthBalance
    else maxTokenBalance
  else job.swapAmount.getD ("0")

/-- The success log entry persisted by the token_swap branch (runner lines
489..499); its `amount` field is `jobConfig.swapAmount`, the configured
amount, not the attempted `amountToSwap`. -/
def tokenSwapSuccessLogEntry (logId : String) (job : CronJobConfig)
    (txHash : String) (nowMs : Nat) : CronLogEntry :=
  { id := logId, jobId := job.id, status := .success, txHash := some txHash,
    error := none, executedAt := nowMs, fromAddr := some job.address,
    toAddr := none, amount := job.swapAmount, fromToken := none,
    toToken := none, tokenAddress := job.tokenAddress, autoPaused := none }

/-- The success log entry persisted by the swap branch (runner lines
342..353); the swap branch has no use-maximum option, so `amount` is the
configured swap amount. -/
def swapSuccessLogEntry (logId : String) (job : CronJobConfig)
    (txHash : String) (nowMs : Nat) : CronLogEntry :=
  { id := logId, jobId := job.id, status := .success, txHash := some txHash,
    error := none, executedAt := nowMs, fromAddr := some job.address,
    toAddr := none, amount := job.swapAmount, fromToken := job.fromToken,
    toToken := job.toToken, tokenAddress := none, autoPaused := none }

/-- C1: for an enabled job, the failure update increments
`consecutiveFailures` by one; when the new count reaches the threshold 3
the persisted record is disabled and the error log entry flags autoPaused,
and below the threshold the record stays enabled; the success update resets
`consecutiveFailures` to 0 and leaves the job enabled; both updates stamp
`lastRunTime` with the current time in the very record that is
persisted. -/
theorem c1_failure_success_updates (job : CronJobConfig) (nowMs : Nat)
    (logId msg : String) (h : job.enabled = true) :
    (jobFailureUpdate job nowMs).consecutiveFailures = job.consecutiveFailures + 1 ∧
    (job.consecutiveFailures + 1 ≥ 3 →
      (jobFailureUpdate job nowMs).enabled = false ∧
      (errorLogEntry logId job msg nowMs).autoPaused = some true) ∧
    (job.consecutiveFailures + 1 < 3 →
      (jobFailureUpdate job nowMs).enabled = true) ∧
    (jobFailureUpdate job nowMs).lastRunTime = some nowMs ∧
    (jobSuccessUpdate job nowMs).consecutiveFailures = 0 ∧
    (jobSuccessUpdate job nowMs).enabled = true ∧
    (jobSuccessUpdate job nowMs).lastRunTime = some nowMs := by
  refine ⟨rfl, ?_, ?_, ?_, rfl, ?_, rfl⟩
  · intro hge
    constructor
    · simp [jobFailureUpdate, MAX_FAILURES, hge]
    · simp [errorLogEntry, MAX_FAILURES, hge]
  · intro hlt
    simp [jobFailureUpdate, MAX_FAILURES, Nat.not_le_of_lt hlt, h]
  · simp [jobFailureUpdate]
  · simp [jobSuccessUpdate, h]

/-- A sample enabled eth_transfer job two failures away from creation,
standing at the auto-pause boundary. -/
def sampleJob : CronJobConfig :=
  { id := ("job1"), name := ("sample"), schedule := ("* * * * *"),
    jobType := .ethTransfer, toAddress := some ("0xdead"),
    amount := some ("0.001"), useMax := false, fromToken := none,
    toToken := none, swapAmount := none, swapDirection := none,
    tokenAddress := none, chain := some ("base"), privateKey := ("0xkey"),
    address := ("0xabc"), walletId := none, lastRunTime := none,
    enabled := true, consecutiveFailures := 2 }

/-- Witness for C1 at a job with two prior consecutive failures: a third
failure auto-pauses it and the error entry records that. -/
theorem c1_failure_success_updates_witness :
    sampleJob.enabled = true ∧
    ((jobFailureUpdate sampleJob 1000).consecutiveFailures = sampleJob.consecutiveFailures + 1 ∧
     (sampleJob.consecutiveFailures + 1 ≥ 3 →
       (jobFailureUpdate sampleJob 1000).enabled = false ∧
       (errorLogEntry ("log1") sampleJob ("boom") 1000).autoPaused = some true) ∧
     (sampleJob.consecutiveFailures + 1 < 3 →
       (jobFailureUpdate sampleJob 1000).enabled = true) ∧
     (jobFailureUpdate sampleJob 1000).lastRunTime = some 1000 ∧
     (jobSuccessUpdate sampleJob 1000).consecutiveFailures = 0 ∧
     (jobSuccessUpdate sampleJob 1000).enabled = true ∧
     (jobSuccessUpdate sampleJob 1000).lastRunTime = some 1000) :=
  ⟨rfl, c1_failure_success_updates sampleJob 1000 ("log1") ("boom") rfl⟩

/-- A use-maximum variant of the sample job, whose configured amount 0.001
differs from the run-time computed maximum 0.5. -/
def sampleMaxJob : CronJobConfig :=
  { sampleJob with useMax := true, consecutiveFailures := 0 }

/-- C6: at a use-maximum eth_transfer job the attempted amount is the
run-time computed maximum, 0.5 here, yet the persisted success log entry
carries the configured amount 0.001 — the code writes `jobConfig.amount`
into the log entry while sending `amountToSend`, so the persisted execution
log does not reflect the actually attempted amount. -/
theorem c6_persisted_log_amount_mismatch :
    ethTransferAmount sampleMaxJob ("0.5") = ("0.5") ∧
    (ethTransferSuccessLogEntry ("log2") sampleMaxJob ("0xhash") 1000).amount
      = some ("0.001") ∧
    some (ethTransferAmount sampleMaxJob ("0.5")) ≠
      (ethTransferSuccessLogEntry ("log2") sampleMaxJob ("0xhash") 1000).amount := by
  refine ⟨rfl, rfl, ?_⟩
  decide

/-- The fixed gas reserve of `getMaxEthBalance` (runner line 40),
parseEther of 0.001 in wei. -/
def gasReserveWei : Nat := 10 ^ 15

/-- Numeric core of `getMaxEthBalance` (runner lines 37..43): the wei
amount computed from the on-chain balance, before it is rendered with
formatEther. -/
def getMaxEthBalanceWei (balance : Nat) : Nat :=
  if balance > gasReserveWei then balance - gasReserveWei else 0

/-- C7: the use-maximum send amount is strictly below the balance whenever
the balance exceeds the gas reserve, and exactly 0 whenever the balance is
at most the gas reserve. -/
theorem c7_max_amount_floor (balance : Nat) :
    (balance > gasReserveWei → getMaxEthBalanceWei balance < balance) ∧
    (balance ≤ gasReserveWei → getMaxEthBalanceWei balance = 0) := by
  constructor
  · intro hgt
    have hpos : 0 < gasReserveWei := by decide
    simp only [getMaxEthBalanceWei, if_pos hgt]
    omega
  · intro hle
    simp only [getMaxEthBalanceWei]
    rw [if_neg (by omega)]

/-- Witness for C7 at a balance of twice the reserve and at a balance equal
to the reserve. -/
theorem c7_max_amount_floor_witness :
    (2 * 10 ^ 15 > gasReserveWei ∧ getMaxEthBalanceWei (2 * 10 ^ 15) < 2 * 10 ^ 15) ∧
    (10 ^ 15 ≤ gasReserveWei ∧ getMaxEthBalanceWei (10 ^ 15) = 0) :=
  ⟨⟨by decide, (c7_max_amount_floor (2 * 10 ^ 15)).1 (by decide)⟩,
   ⟨by decide, (c7_max_amount_floor (10 ^ 15)).2 (by decide)⟩⟩

/-!
Nonce lock (src/lib/nonce-lock.ts).  The acquisition protocol of
`acquireNonceLock` is the loop: read the key (line 25); if absent, write a
fresh token (line 30, the `kv.expire` call does not change the value and is
omitted), then read again to verify the write won (line 43); on success
return the token, on which `withNonceLock` runs its body.  To settle the
concurrency claim this protocol is embedded as an interleaving of atomic
store operations by two processes 0 and 1 contending for the same key; a
schedule is the list of which process performs its next operation.  A
process in the `acquired` location has passed verification and is executing
its body; neither has released yet, so two processes simultaneously
`acquired` means the two bodies run concurrently.
-/

/-- Lock constants from src/lib/nonce-lock.ts: TTL seconds, retry delay ms,
maximum wait ms. -/
def LOCK_TTL : Nat := 60

/-- Retry delay in milliseconds between acquisition polls. -/
def LOCK_RETRY_DELAY : Nat := 100

/-- Maximum total wait in milliseconds before acquisition gives up. -/
def MAX_LOCK_WAIT : Nat := 10000

/-- Location of one acquirer inside `acquireNonceLock`: about to read the
key, about to write its token, about to verify, or past verification with
the body running. -/
inductive LockPc where
  | checking
  | setting
  | verifying
  | acquired
deriving DecidableEq, Repr

/-- Shared store value (which process's token is at the key, if any) and
the two program counters. -/
structure LockState where
  store : Option (Fin 2)
  pc0 : LockPc
  pc1 : LockPc
deriving DecidableEq, Repr

/-- One atomic operation of process `p` against the shared key, following
the source: a read that finds a token leaves the process polling; a read
that finds none moves to the write; the write stores the process's own
token unconditionally (the store has no compare-and-swap); the verification
read succeeds exactly when the process's own token is still there, and
otherwise returns to polling. -/
def lockStep (s : LockState) (p : Fin 2) : LockState :=
  let pc := if p = 0 then s.pc0 else s.pc1
  let setPc := fun (n : LockPc) =>
    if p = 0 then { s with pc0 := n } else { s with pc1 := n }
  match pc with
  | .checking => if s.store = none then setPc .setting else s
  | .setting =>
    if p = 0 then { s with pc0 := .verifying, store := some p }
    else { s with pc1 := .verifying, store := some p }
  | .verifying => if s.store = some p then setPc .acquired else setPc .checking
  | .acquired => s

/-- Run a schedule from the state where the key is free and both processes
are about to make their first read. -/
def lockRun (sched : List (Fin 2)) : LockState :=
  sched.foldl lockStep { store := none, pc0 := .checking, pc1 := .checking }

/-- The state after process 0 has completed an uncontended acquisition:
its token is stored and its body is running, process 1 has not started. -/
def afterFirstAcquire : LockState := lockRun [0, 0, 0]

/-- Embedding of `withNonceLock`: when acquisition returned null the
wrapper throws and the body never runs; with a lock id it returns the body
result (and releases in a finally clause, not modelled further). -/
def withNonceLockResult {α : Type} (lockId : Option String) (body : α) :
    Except String α :=
  match lockId with
  | none => Except.error ("Failed to acquire nonce lock")
  | some _ => Except.ok body

/-- C4 counterexample: under the schedule where both processes read the
free key before either writes, both pass their verification read and both
reach the `acquired` location with neither released — the two bodies
execute concurrently, refuting the claimed mutual exclusion.  The run is:
0 reads free, 1 reads free, 0 writes its token, 0 verifies and wins, 1
overwrites with its token, 1 verifies and wins too. -/
theorem c4_counterexample :
    (lockRun [0, 1, 0, 0, 1, 1]).pc0 = LockPc.acquired ∧
    (lockRun [0, 1, 0, 0, 1, 1]).pc1 = LockPc.acquired := by
  decide

/-- C4 amended: mutual exclusion does hold once an acquisition has
completed before the contender starts: after process 0 holds the lock,
any number of steps by process 1 alone leaves the state unchanged and
process 1 polling, never acquired; a caller whose acquisition returns null
gets a thrown error from `withNonceLock` instead of its body running; and
the poll loop allows at most MAX_LOCK_WAIT / LOCK_RETRY_DELAY = 100
hundred-millisecond polls, the bounded total wait of about 10 seconds.
Only when the two acquisition sequences interleave before either write can
both bodies run concurrently, the check-then-act race exhibited by the
counterexample. -/
theorem c4_lock_amended (sched : List (Fin 2)) (body : String)
    (h : ∀ q ∈ sched, q = 1) :
    sched.foldl lockStep afterFirstAcquire = afterFirstAcquire ∧
    (sched.foldl lockStep afterFirstAcquire).pc1 ≠ LockPc.acquired ∧
    withNonceLockResult none body = Except.error ("Failed to acquire nonce lock") ∧
    MAX_LOCK_WAIT / LOCK_RETRY_DELAY = 100 := by
  have hfix : sched.foldl lockStep afterFirstAcquire = afterFirstAcquire := by
    induction sched with
    | nil => rfl
    | cons q t ih =>
      have hq : q = 1 := h q (List.mem_cons_self q t)
      subst hq
      rw [List.foldl_cons]
      have hstep : lockStep afterFirstAcquire 1 = afterFirstAcquire := by decide
      rw [hstep]
      exact ih (fun q hq => h q (List.mem_cons_of_mem _ hq))
  refine ⟨hfix, ?_, rfl, by decide⟩
  rw [hfix]
  decide

/-- Witness for the amended C4 at the schedule of three poll attempts by
process 1 against a held lock. -/
theorem c4_lock_amended_witness :
    (∀ q ∈ ([1, 1, 1] : List (Fin 2)), q = 1) ∧
    (([1, 1, 1] : List (Fin 2)).foldl lockStep afterFirstAcquire).pc1 ≠
      LockPc.acquired :=
  ⟨by decide, (c4_lock_amended [1, 1, 1] ("tx") (by decide)).2.1⟩

/-!
Which executions run under the nonce lock (claim C5).  Each executor is
embedded as the sequence of its externally visible operations in source
order, parametrized by the branch conditions of its happy path: chain
reads, quote endpoint fetches, lock acquisition and release, and
transaction submissions.  `sendEth` is from src/lib/eth.ts, the 0x swap
helpers from src/lib/zeroex-swap.ts, and the USDC-to-ETH path of
`swapTokens` from the 0x-based swap module that the runner imports.
-/

/-- Externally visible operations of an executor. -/
inductive ChainEvent where
  | chainRead
  | quoteFetch
  | lockAcquire
  | lockRelease
  | submitTx
deriving DecidableEq, Repr

/-- Operation sequence of `sendEth` (src/lib/eth.ts lines 126..242):
balance read, throw if the amount exceeds it; gas price read, throw if
amount plus gas exceeds the balance; pending nonce read; submission.  No
lock operation occurs anywhere in the function. -/
def sendEthTrace (okAmount okGas : Bool) : List ChainEvent :=
  [.chainRead] ++
  (if okAmount then
    [.chainRead] ++ (if okGas then [.chainRead, .submitTx] else [])
  else [])

/-- Operation sequence of `swapEthForTokenZeroEx` (src/lib/zeroex-swap.ts):
ETH balance read and check, then under the nonce lock a WETH balance read,
an optional wrap submission, the price fetch, an optional approve
submission, the quote fetch and the swap submission, then release. -/
def swapEthForTokenTrace (okBalance needsWrap needsApprove : Bool) :
    List ChainEvent :=
  [.chainRead] ++
  (if okBalance then
    [.lockAcquire, .chainRead] ++
    (if needsWrap then [.submitTx] else []) ++
    [.quoteFetch] ++
    (if needsApprove then [.submitTx] else []) ++
    [.quoteFetch, .submitTx, .lockRelease]
  else [])

/-- Operation sequence of `swapTokenForEthZeroEx`: token balance read and
check, then under the nonce lock the price fetch, an optional approve
submission, the quote fetch, a WETH balance read, the swap submission, a
second WETH balance read and an optional unwrap submission, then
release. -/
def swapTokenForEthTrace (okBalance needsApprove receivedWeth : Bool) :
    List ChainEvent :=
  [.chainRead] ++
  (if okBalance then
    [.lockAcquire, .quoteFetch] ++
    (if needsApprove then [.submitTx] else []) ++
    [.quoteFetch, .chainRead, .submitTx, .chainRead] ++
    (if receivedWeth then [.submitTx] else []) ++
    [.lockRelease]
  else [])

/-- Operation sequence of the USDC-to-ETH path of `swapTokens` in the
0x-based swap module: USDC balance read and check, then under the nonce
lock the price and quote fetches, an optional approve submission, a WETH
balance read, the swap submission, a second WETH balance read and an
optional unwrap submission, then release.  Its ETH-to-USDC path delegates
to `swapEthForTokenZeroEx`. -/
def swapUsdcToEthTrace (okBalance needsApprove receivedWeth : Bool) :
    List ChainEvent :=
  [.chainRead] ++
  (if okBalance then
    [.lockAcquire, .quoteFetch, .quoteFetch] ++
    (if needsApprove then [.submitTx] else []) ++
    [.chainRead, .submitTx, .chainRead] ++
    (if receivedWeth then [.submitTx] else []) ++
    [.lockRelease]
  else [])

/-- Scan of a trace checking that every transaction submission happens
while the lock is held: true exactly when no `submitTx` occurs outside an
acquire/release bracket. -/
def submitsUnderLock : List ChainEvent → Bool :=
  go false
where
  /-- Inner scan carrying whether the lock is currently held. -/
  go (held : Bool) : List ChainEvent → Bool
    | [] => true
    | .lockAcquire :: rest => go true rest
    | .lockRelease :: rest => go false rest
    | .submitTx :: rest => held && go held rest
    | _ :: rest => go held rest

/-- C5 counterexample: the eth_transfer native send is not performed under
the nonce lock: on the path that submits, the `sendEth` trace contains a
transaction submission but no lock acquisition at all, so its submission
is outside any lock bracket. -/
theorem c5_counterexample :
    (sendEthTrace true true).contains ChainEvent.submitTx = true ∧
    (sendEthTrace true true).contains ChainEvent.lockAcquire = false ∧
    submitsUnderLock (sendEthTrace true true) = false := by
  decide

/-- C5 amended: the swap variants do execute every transaction submission
inside the nonce lock — for all branch outcomes of `swapEthForTokenZeroEx`,
`swapTokenForEthZeroEx` and the USDC-to-ETH path of `swapTokens`, every
submission lies between the lock acquisition and the release — but the
eth_transfer job type does not: `sendEth` never acquires the nonce lock and
submits with an explicitly fetched pending nonce. -/
theorem c5_swaps_locked_eth_transfer_not (b1 b2 b3 : Bool) :
    submitsUnderLock (swapEthForTokenTrace b1 b2 b3) = true ∧
    submitsUnderLock (swapTokenForEthTrace b1 b2 b3) = true ∧
    submitsUnderLock (swapUsdcToEthTrace b1 b2 b3) = true ∧
    (sendEthTrace b1 b2).contains ChainEvent.lockAcquire = false ∧
    (sendEthTrace true true).contains ChainEvent.submitTx = true := by
  revert b1 b2 b3
  decide

/-!
The tick loop of the cron runner (src/pages/api/cron/runner.ts lines
118..577).  The handler iterates the active job ids; for each it loads the
config, skips disabled or not-due jobs, and runs the branch for the job
type inside a try/catch that turns any execution error into run-state
updates and an error log entry, then continues with the next job.  The
loop is embedded as structural recursion over the job list; the result of
the awaited chain call of each job is an oracle field `execOutcome` of the
job item, and the branch catch is the case split on it.  Effects are the
persistence writes the handler performs; the aggregate response is the
status and message of the JSON reply (in the source the per-job results
are collected into a local that is returned at the end). -/

/-- A persistence write performed by the runner. -/
inductive Effect where
  | kvSetJob (jobId : String) (cfg : CronJobConfig)
  | kvSetLog (entry : CronLogEntry)
  | lpushLog (jobId : String) (logId : String)
  | ltrimLogs (jobId : String)

/-- One job of a tick: the id from the active set, the config read from
the store (none when the key is gone), the result of the awaited chain
call were the job executed, and the log id generated for this attempt. -/
structure JobItem where
  jobId : String
  config : Option CronJobConfig
  execOutcome : Except String String
  logId : String

/-- The missing-configuration throw of the swap branch (runner line 299),
raised inside the same try as the chain call. -/
def swapBranchOutcome (cfg : CronJobConfig) (outcome : Except String String) :
    Except String String :=
  if cfg.fromToken.isNone || cfg.toToken.isNone || cfg.swapAmount.isNone then
    Except.error ("Missing swap configuration: fromToken, toToken, or swapAmount")
  else outcome

/-- The missing-configuration throw of the token_swap branch (runner line
418), raised inside the same try as the chain call. -/
def tokenSwapBranchOutcome (cfg : CronJobConfig) (outcome : Except String String) :
    Except String String :=
  if cfg.tokenAddress.isNone then
    Except.error ("Missing token swap configuration: tokenAddress")
  else outcome

/-- The persistence writes of the failure path shared by the three
branches: persist the updated run state, persist the error log entry, push
its id and trim the log list. -/
def failureEffects (j : JobItem) (cfg : CronJobConfig) (msg : String)
    (nowMs : Nat) : List Effect :=
  [ .kvSetJob j.jobId (jobFailureUpdate cfg nowMs),
    .kvSetLog (errorLogEntry j.logId cfg msg nowMs),
    .lpushLog j.jobId j.logId,
    .ltrimLogs j.jobId ]

/-- Processing of one job by the runner loop: skip when the config is
absent, disabled or not due; otherwise run the branch for the job type,
whose catch clause turns an error outcome into the failure effects.  Job
types outside the three handled ones leave the placeholder skipped result
and write nothing. -/
def processJob (nowMs : Nat) (now : JsDate) (toLocal : Nat → JsDate)
    (j : JobItem) : List Effect :=
  match j.config with
  | none => []
  | some cfg =>
    if !cfg.enabled then []
    else if !shouldRunJob cfg.schedule now (cfg.lastRunTime.map toLocal) then []
    else
      match cfg.jobType with
      | .ethTransfer =>
        match j.execOutcome with
        | .ok tx =>
          [ .kvSetJob j.jobId (jobSuccessUpdate cfg nowMs),
            .kvSetLog (ethTransferSuccessLogEntry j.logId cfg tx nowMs),
            .lpushLog j.jobId j.logId,
            .ltrimLogs j.jobId ]
        | .error msg => failureEffects j cfg msg nowMs
      | .swap =>
        match swapBranchOutcome cfg j.execOutcome with
        | .ok tx =>
          [ .kvSetJob j.jobId (jobSuccessUpdate cfg nowMs),
            .kvSetLog (swapSuccessLogEntry j.logId cfg tx nowMs),
            .lpushLog j.jobId j.logId,
            .ltrimLogs j.jobId ]
        | .error msg => failureEffects j cfg msg nowMs
      | .tokenSwap =>
        match tokenSwapBranchOutcome cfg j.execOutcome with
        | .ok tx =>
          [ .kvSetJob j.jobId (jobSuccessUpdate cfg nowMs),
            .kvSetLog (tokenSwapSuccessLogEntry j.logId cfg tx nowMs),
            .lpushLog j.jobId j.logId,
            .ltrimLogs j.jobId ]
        | .error msg => failureEffects j cfg msg nowMs
      | .other => []

/-- The writes of a whole tick: the for loop over the active jobs in
order. -/
def runTickEffects (nowMs : Nat) (now : JsDate) (toLocal : Nat → JsDate) :
    List JobItem → List Effect
  | [] => []
  | j :: rest =>
    processJob nowMs now toLocal j ++ runTickEffects nowMs now toLocal rest

/-- The HTTP status and message of the aggregate tick response: 200 with
the no-jobs message for an empty active set, otherwise 200 with the
processed message; the 500 branch is reachable only from a persistence
failure of the store itself, which is outside this model. -/
def runTickResponse (jobs : List JobItem) : Nat × String :=
  if jobs.isEmpty then (200, ("No active cron jobs"))
  else (200, ("Cron jobs processed"))

/-- Helper: the tick writes decompose over concatenation of the job
list. -/
theorem runTickEffects_append (nowMs : Nat) (now : JsDate)
    (toLocal : Nat → JsDate) (l1 l2 : List JobItem) :
    runTickEffects nowMs now toLocal (l1 ++ l2) =
      runTickEffects nowMs now toLocal l1 ++ runTickEffects nowMs now toLocal l2 := by
  induction l1 with
  | nil => rfl
  | cons a t ih => simp [runTickEffects, ih]

/-- C8: an error outcome of any executing job in a tick is caught for that
job alone: the writes of the tick are those of the earlier jobs, then
those of the failing job, then those of the later jobs, unchanged; the
failing job itself records an error log entry among its writes; and the
aggregate response of the tick is still the 200 reply. -/
theorem c8_per_job_isolation (nowMs : Nat) (now : JsDate)
    (toLocal : Nat → JsDate) (pre post : List JobItem) (j : JobItem)
    (cfg : CronJobConfig) (msg : String)
    (hc : j.config = some cfg) (he : cfg.enabled = true)
    (hd : shouldRunJob cfg.schedule now (cfg.lastRunTime.map toLocal) = true)
    (ht : cfg.jobType ≠ JobType.other)
    (hx : j.execOutcome = Except.error msg) :
    runTickEffects nowMs now toLocal (pre ++ j :: post) =
      runTickEffects nowMs now toLocal pre ++ processJob nowMs now toLocal j ++
        runTickEffects nowMs now toLocal post ∧
    (runTickResponse (pre ++ j :: post)).1 = 200 ∧
    (∃ entry, Effect.kvSetLog entry ∈ processJob nowMs now toLocal j ∧
      entry.status = LogStatus.error) := by
  refine ⟨?_, ?_, ?_⟩
  · rw [runTickEffects_append]
    simp [runTickEffects, List.append_assoc]
  · unfold runTickResponse
    cases pre <;> simp
  · simp only [processJob, hc, he, hd, hx, Bool.not_true, Bool.false_eq_true,
      if_false]
    cases hty : cfg.jobType with
    | other => exact absurd hty ht
    | ethTransfer =>
      exact ⟨errorLogEntry j.logId cfg msg nowMs, by simp [failureEffects], rfl⟩
    | swap =>
      unfold swapBranchOutcome
      by_cases hm : cfg.fromToken.isNone || cfg.toToken.isNone || cfg.swapAmount.isNone
      · rw [if_pos hm]
        exact ⟨errorLogEntry j.logId cfg
          ("Missing swap configuration: fromToken, toToken, or swapAmount") nowMs,
          by simp [failureEffects], rfl⟩
      · rw [if_neg hm]
        exact ⟨errorLogEntry j.logId cfg msg nowMs, by simp [failureEffects], rfl⟩
    | tokenSwap =>
      unfold tokenSwapBranchOutcome
      by_cases hm : cfg.tokenAddress.isNone
      · rw [if_pos hm]
        exact ⟨errorLogEntry j.logId cfg
          ("Missing token swap configuration: tokenAddress") nowMs,
          by simp [failureEffects], rfl⟩
      · rw [if_neg hm]
        exact ⟨errorLogEntry j.logId cfg msg nowMs, by simp [failureEffects], rfl⟩

/-- A concrete failing job item for the C8 witness: the sample job is due
at the sample instant and its chain call failed with an insufficient
balance error. -/
def sampleFailingItem : JobItem :=
  { jobId := ("job1"), config := some sampleJob,
    execOutcome := Except.error ("Insufficient balance"), logId := ("L1") }

/-- Witness for C8 at a one-job tick whose only job fails: its writes are
exactly its own, an error entry is among them, and the response stays
200. -/
theorem c8_per_job_isolation_witness :
    (sampleFailingItem.config = some sampleJob ∧
     sampleJob.enabled = true ∧
     shouldRunJob sampleJob.schedule sampleDate
       (sampleJob.lastRunTime.map fun _ => sampleDate) = true ∧
     sampleJob.jobType ≠ JobType.other ∧
     sampleFailingItem.execOutcome = Except.error ("Insufficient balance")) ∧
    (runTickEffects 1000 sampleDate (fun _ => sampleDate) ([] ++ sampleFailingItem :: []) =
      runTickEffects 1000 sampleDate (fun _ => sampleDate) [] ++
        processJob 1000 sampleDate (fun _ => sampleDate) sampleFailingItem ++
        runTickEffects 1000 sampleDate (fun _ => sampleDate) [] ∧
     (runTickResponse ([] ++ sampleFailingItem :: [])).1 = 200 ∧
     (∃ entry, Effect.kvSetLog entry ∈
        processJob 1000 sampleDate (fun _ => sampleDate) sampleFailingItem ∧
        entry.status = LogStatus.error)) :=
  ⟨⟨rfl, rfl, by decide, by decide, rfl⟩,
   c8_per_job_isolation 1000 sampleDate (fun _ => sampleDate) [] []
     sampleFailingItem sampleJob ("Insufficient balance")
     rfl rfl (by decide) (by decide) rfl⟩

end CronSpec
